import Mathlib

/-!
Verification development for the audio sample-rate inspector
(`src/python/audio_check.py`).

The Python program is shallowly embedded below:

* machine integers are modelled as `Int` (Python ints are unbounded, so no
  wrap-around is needed);
* Python strings are modelled as Lean `String`s, operated on through their
  underlying `List Char` so that everything kernel-evaluates;
* Python floats appearing in the percentage line are modelled as exact
  rational arithmetic (integer numerator/denominator with half-even
  rounding), mirroring the value `hi_res_count / total_valid * 100`
  rendered by the format spec `.1f`;
* the external `ffprobe` subprocess together with `json.loads` is modelled
  as an abstract probe environment `ProbeEnv` (tool missing / non-zero
  exit / textual output already parsed or failed to parse), and Python
  exception propagation is modelled with `Except PyExc`;
* the filesystem walked by `Path.rglob` is modelled as a list of entries
  `FsEntry` (path plus whether the entry is a regular file); paths produced
  by directory iteration contain no doubled or trailing separators;
* the interactive loop is modelled one iteration at a time: an iteration
  consumes the menu choice (a text line or an interrupt) and at most one
  sub-flow input line, and yields the messages printed after the reads plus
  a control effect.
-/

namespace AudioCheck

/-! ### Python string primitives -/

/-- The ASCII whitespace characters removed by Python `str.strip()`
(space, tab, newline, carriage return, vertical tab, form feed). -/
def pyIsSpace (c : Char) : Bool :=
  c == ' ' || c == Char.ofNat 9 || c == Char.ofNat 10 ||
  c == Char.ofNat 13 || c == Char.ofNat 11 || c == Char.ofNat 12

/-- Drop leading and trailing characters satisfying `p`, as Python
`str.strip(chars)` does. -/
def stripEnds (p : Char → Bool) (s : String) : String :=
  String.mk (((s.data.dropWhile p).reverse.dropWhile p).reverse)

/-- Python `str.strip()` (whitespace form). -/
def pyStrip (s : String) : String := stripEnds pyIsSpace s

/-- The two quote characters stripped by the program: `chr 39` and `chr 34`. -/
def isQuoteChar (c : Char) : Bool := c == Char.ofNat 39 || c == Char.ofNat 34

/-- Python str.strip with both quote characters, as used on user-entered paths. -/
def pyStripQuotes (s : String) : String := stripEnds isQuoteChar s

/-- Split a character list at every occurrence of `c`
(Python `str.split(sep)` with a one-character separator). -/
def splitOnChar (c : Char) : List Char → List (List Char)
  | [] => [[]]
  | x :: xs =>
    match splitOnChar c xs with
    | [] => [[]]
    | g :: gs => if x = c then [] :: g :: gs else (x :: g) :: gs

/-- `os.path.basename` on a POSIX path string: the component after the
last separator. -/
def basename (p : String) : String :=
  String.mk ((splitOnChar (Char.ofNat 47) p.data).getLastD [])

/-- Index of the last occurrence of `c`, if any (Python `str.rfind`). -/
def rfindIdx (c : Char) : List Char → Option Nat
  | [] => none
  | x :: xs =>
    match rfindIdx c xs with
    | some i => some (i + 1)
    | none => if x = c then some 0 else none

/-- `pathlib.PurePath.suffix`: the extension of the final component,
including the dot; empty when the final component has no dot, starts with
its only dot, or ends with a dot. -/
def path_suffix (p : String) : String :=
  let nm := (basename p).data
  match rfindIdx (Char.ofNat 46) nm with
  | none => ""
  | some i => if 0 < i ∧ i + 1 < nm.length then String.mk (nm.drop i) else ""

/-- Python `str.lower()` restricted to ASCII, which is all the extension
comparison ever needs. -/
def py_lower (s : String) : String := String.mk (s.data.map Char.toLower)

/-! ### Classifier (`classify_sr`, lines 44-45) -/

/-- Python truthiness of an `int`. -/
def intTruthy (n : Int) : Bool := n != 0

/-- `classify_sr(sr)`: the expression
`"HI-RES" if sr and sr > 44100 else "Standard"` where `sr` is either an
integer or `None` (modelled as `Option Int`; `None` and `0` are falsy). -/
def classify_sr (sr : Option Int) : String :=
  if (match sr with
      | none => false
      | some r => intTruthy r && decide (44100 < r)) then "HI-RES" else "Standard"

/-! ### Reporter (`print_result`, lines 47-60) -/

/-- The status tag rendered on a per-file line; the payload of the
classified tags is the displayed `sr / 1000` kHz value. -/
inductive Tag where
  | failed
  | hiRes (khz : ℚ)
  | standard (khz : ℚ)
deriving DecidableEq

/-- Whether a tag is the HI-RES one. -/
def Tag.isHiRes : Tag → Bool
  | .hiRes _ => true
  | _ => false

/-- One rendered per-file line: its tag and the display name used. -/
structure ReportLine where
  tag : Tag
  displayName : String
deriving DecidableEq

/-- `print_result(file_path, sr)`: returns the rendered line together with
the boolean the Python function returns (`False` on a failed probe). -/
def print_result (file_path : String) (sr : Option Int) : ReportLine × Bool :=
  let rel_path := if 60 < file_path.length then basename file_path else file_path
  match sr with
  | none => (⟨Tag.failed, rel_path⟩, false)
  | some r =>
    let category := classify_sr (some r)
    let sr_khz : ℚ := (r : ℚ) / 1000
    if category = "HI-RES" then (⟨Tag.hiRes sr_khz, rel_path⟩, true)
    else (⟨Tag.standard sr_khz, rel_path⟩, true)

/-! ### Probe invoker (`get_sample_rate`, lines 24-42)

The subprocess call plus `json.loads` is abstracted into `ProbeEnv`; the
body of the Python function is a computation in `Except PyExc`, and the
`try/except` clause catches exactly the five exception classes listed on
line 40, normalising them to `None`.  Everything else propagates. -/

/-- A parsed JSON value (ffprobe output model; JSON numbers are restricted
to integers, which is the shape ffprobe emits for `sample_rate`). -/
inductive JVal where
  | null
  | num (n : Int)
  | str (s : String)
  | arr (xs : List JVal)
  | obj (kvs : List (String × JVal))

/-- The Python exception classes get_sample_rate can encounter. -/
inductive PyExc where
  | fileNotFound
  | calledProcessError
  | jsonDecodeError
  | valueError
  | indexError
  | keyError
  | typeError
  | attributeError
deriving DecidableEq

/-- The abstract outcome of `subprocess.run(..., check=True)` composed
with `json.loads(result.stdout)`: the probing tool may be absent
(`FileNotFoundError`), exit non-zero (`CalledProcessError`), or produce
textual output that either parses to a `JVal` or fails to parse
(`JSONDecodeError`). -/
inductive ProbeEnv where
  | toolMissing
  | exitNonZero
  | output (parsed : Option JVal)

/-- Python truthiness of a JSON value. -/
def jtruthy : JVal → Bool
  | .null => false
  | .num n => n != 0
  | .str s => s != ""
  | .arr xs => !xs.isEmpty
  | .obj kvs => !kvs.isEmpty

/-- Lookup in the dict model (keys of a Python dict are unique). -/
def jlookup (kvs : List (String × JVal)) (k : String) : Option JVal :=
  kvs.lookup k

/-- `data.get(k, dflt)`: only dicts have `.get`; every other value raises
`AttributeError`. -/
def py_get_default (data : JVal) (k : String) (dflt : JVal) : Except PyExc JVal :=
  match data with
  | .obj kvs => .ok ((jlookup kvs k).getD dflt)
  | _ => .error .attributeError

/-- `x[0]`: lists and strings index from the front (`IndexError` when
empty), dicts raise `KeyError` for the integer key `0`, numbers and `None`
are not subscriptable (`TypeError`). -/
def py_index0 : JVal → Except PyExc JVal
  | .arr xs =>
    match xs.head? with
    | some v => .ok v
    | none => .error .indexError
  | .str s =>
    match s.data.head? with
    | some c => .ok (.str (String.mk [c]))
    | none => .error .indexError
  | .obj _ => .error .keyError
  | .num _ => .error .typeError
  | .null => .error .typeError

/-- Python `==` between a value and a string (false across types). -/
def jeqStr (v : JVal) (k : String) : Bool :=
  match v with
  | .str t => t == k
  | _ => false

/-- Substring test used by Python `k in s` on strings. -/
def strContainsSub (hay k : String) : Bool :=
  (List.range (hay.data.length + 1)).any (fun i => k.data.isPrefixOf (hay.data.drop i))

/-- `k in x` for a string `k`: key test on dicts, membership on lists,
substring test on strings; numbers and `None` raise `TypeError`. -/
def py_contains_str (x : JVal) (k : String) : Except PyExc Bool :=
  match x with
  | .obj kvs => .ok (kvs.any (fun kv => kv.1 == k))
  | .arr xs => .ok (xs.any (fun v => jeqStr v k))
  | .str s => .ok (strContainsSub s k)
  | .num _ => .error .typeError
  | .null => .error .typeError

/-- `x[k]` for a string key: dict lookup (`KeyError` when absent); lists,
strings, numbers and `None` raise `TypeError` for a string index. -/
def py_subscript_str (x : JVal) (k : String) : Except PyExc JVal :=
  match x with
  | .obj kvs =>
    match jlookup kvs k with
    | some v => .ok v
    | none => .error .keyError
  | _ => .error .typeError

/-- Numeric value of a digit list, when all characters are digits. -/
def digitsVal (cs : List Char) : Option Nat :=
  if cs.isEmpty then none
  else if cs.all Char.isDigit then
    some (cs.foldl (fun a c => a * 10 + (c.toNat - 48)) 0)
  else none

/-- Python `int(s)` on a string: surrounding whitespace and an optional
sign are accepted, everything else must be digits; failure is
`ValueError`. -/
def pyParseInt (s : String) : Option Int :=
  let cs := ((s.data.dropWhile pyIsSpace).reverse.dropWhile pyIsSpace).reverse
  match cs with
  | [] => none
  | c :: rest =>
    if c = Char.ofNat 45 then (digitsVal rest).map (fun n => -(n : Int))
    else if c = Char.ofNat 43 then (digitsVal rest).map (fun n => (n : Int))
    else (digitsVal cs).map (fun n => (n : Int))

/-- `int(v)` on a JSON value: numbers convert, numeric strings parse,
non-numeric strings raise `ValueError`, `None`, lists and dicts raise
`TypeError`. -/
def py_int_of : JVal → Except PyExc Int
  | .num n => .ok n
  | .str s =>
    match pyParseInt s with
    | some n => .ok n
    | none => .error .valueError
  | _ => .error .typeError

/-- The body of `get_sample_rate` (the code inside `try`), with Python
exceptions surfaced in `Except`. -/
def get_sample_rate_body (env : ProbeEnv) : Except PyExc (Option Int) :=
  match env with
  | .toolMissing => .error .fileNotFound
  | .exitNonZero => .error .calledProcessError
  | .output none => .error .jsonDecodeError
  | .output (some data) =>
    match py_get_default data "streams" (.arr []) with
    | .error e => .error e
    | .ok streams =>
      if jtruthy streams then
        match py_index0 streams with
        | .error e => .error e
        | .ok s0 =>
          match py_contains_str s0 "sample_rate" with
          | .error e => .error e
          | .ok b =>
            if b then
              match py_subscript_str s0 "sample_rate" with
              | .error e => .error e
              | .ok v =>
                match py_int_of v with
                | .error e => .error e
                | .ok n => .ok (some n)
            else .ok none
      else .ok none

/-- The exception classes named by the `except` clause on line 40. -/
def caught_by_handler : PyExc → Bool
  | .calledProcessError => true
  | .jsonDecodeError => true
  | .valueError => true
  | .indexError => true
  | .keyError => true
  | _ => false

/-- `get_sample_rate`: the body wrapped in its `try/except`; caught
exceptions fall through to `return None`, everything else propagates. -/
def get_sample_rate (env : ProbeEnv) : Except PyExc (Option Int) :=
  match get_sample_rate_body env with
  | .ok v => .ok v
  | .error e => if caught_by_handler e then .ok none else .error e

/-! ### Folder scan (`scan_folder`, lines 62-107) -/

/-- One filesystem entry yielded by `folder.rglob`: its path and whether
it is a regular file. -/
structure FsEntry where
  path : String
  isFile : Bool
deriving DecidableEq

/-- The recognised audio extensions (line 71). -/
def audioExtensions : List String :=
  [".flac", ".mp3", ".m4a", ".wav", ".aac", ".ogg", ".opus"]

/-- `p.suffix.lower() in extensions` (line 74). -/
def isAudioExt (p : String) : Bool :=
  audioExtensions.contains (py_lower (path_suffix p))

/-- The components of a path string.  Paths coming out of directory
iteration have no doubled or trailing separators, so a plain split agrees
with `PurePath.parts` there. -/
def pathParts (p : String) : List (List Char) := splitOnChar (Char.ofNat 47) p.data

/-- The path order used by `sorted` on line 72: Python compares `Path`
objects by their component tuples, lexicographically, with components
compared code point by code point — which is exactly the lexicographic
order on `List (List Char)`. -/
def pathLeP (a b : String) : Prop := pathParts a ≤ pathParts b

instance : DecidableRel pathLeP :=
  fun a b => inferInstanceAs (Decidable (pathParts a ≤ pathParts b))

instance : IsTotal String pathLeP :=
  ⟨fun a b => le_total (pathParts a) (pathParts b)⟩

instance : IsTrans String pathLeP :=
  ⟨fun _ _ _ hab hbc => le_trans (α := List (List Char)) hab hbc⟩

/-- Lines 71-75: keep the regular files with a recognised extension and
sort them in ascending path order.  (`sorted` is modelled with insertion
sort; for the total order `pathLeP` every correct sort yields the same
list.) -/
def audio_files (entries : List FsEntry) : List String :=
  List.insertionSort pathLeP
    ((entries.filter (fun e => e.isFile && isAudioExt e.path)).map FsEntry.path)

/-- The loop body of lines 86-92 acting on the accumulator
`(hi_res_count, total_valid)`: `ok` is the value returned by `print_result`, and
a valid file with `sr > 44100` bumps the HI-RES counter. -/
def scan_step (probe : String → Option Int) (acc : Nat × Nat) (f : String) : Nat × Nat :=
  let sr := probe f
  let ok := (print_result f sr).2
  if ok then
    (acc.1 + (if (match sr with
                  | some r => decide (44100 < r)
                  | none => false) then 1 else 0),
     acc.2 + 1)
  else acc

/-- The counters after the whole loop of lines 83-92, starting from
`hi_res_count = 0`, `total_valid = 0`. -/
def scan_counts (probe : String → Option Int) (files : List String) : Nat × Nat :=
  files.foldl (scan_step probe) (0, 0)

/-- Whether the probe succeeded on `f` (the file counts as valid). -/
def probeOk (probe : String → Option Int) (f : String) : Bool := (probe f).isSome

/-- Whether the probe succeeded on `f` with a rate above the threshold
(the file counts as HI-RES). -/
def probeHiRes (probe : String → Option Int) (f : String) : Bool :=
  match probe f with
  | some r => decide (44100 < r)
  | none => false

/-- Digit character of `n < 10`. -/
def natDigitChar (n : Nat) : Char := Char.ofNat (48 + n)

/-- Decimal digits of `n`, most significant first (`fuel` bounds the
recursion; `fuel = n + 1` always suffices). -/
def natDigitsAux : Nat → Nat → List Char
  | 0, _ => []
  | fuel + 1, n =>
    if n < 10 then [natDigitChar n]
    else natDigitsAux fuel (n / 10) ++ [natDigitChar (n % 10)]

/-- Decimal rendering of a natural number. -/
def natToStr (n : Nat) : String := String.mk (natDigitsAux (n + 1) n)

/-- Nearest integer to the exact rational `p / q` (with `q > 0`), ties
going to the even neighbour — the rounding used by `format(x, ".1f")`. -/
def roundHalfEvenDiv (p q : Nat) : Nat :=
  let f := p / q
  let r := p % q
  if 2 * r < q then f
  else if q < 2 * r then f + 1
  else if f % 2 = 0 then f else f + 1

/-- The text of `f-string {hi / valid * 100:.1f}` (line 104-105), with the
float arithmetic modelled exactly: the percentage `hi * 100 / valid` is
rendered to one decimal place, ties to even. -/
def fmtPercent (hi valid : Nat) : String :=
  let t := roundHalfEvenDiv (hi * 1000) valid
  natToStr (t / 10) ++ "." ++ natToStr (t % 10)

/-- The aggregate report of lines 99-107: the two unconditional count
lines, the optional percentage line and the optional failure-count line. -/
structure SummaryReport where
  /-- number of audio files discovered (`len(audio_files)`). -/
  totalFiles : Nat
  /-- the printed `total_valid`. -/
  totalValid : Nat
  /-- the printed `hi_res_count`. -/
  hiResCount : Nat
  /-- the percentage line payload, when printed (lines 103-105). -/
  pctLine : Option String
  /-- the failure-count line payload, when printed (lines 106-107). -/
  failLine : Option Nat
deriving DecidableEq

/-- `scan_folder` on a valid directory, from discovery to the aggregate
report: `none` when no supported audio file is found (lines 77-79, which
print a notice and return without statistics), otherwise the report. -/
def scan_folder_model (probe : String → Option Int) (entries : List FsEntry) :
    Option SummaryReport :=
  let files := audio_files entries
  if files.isEmpty then none
  else
    let c := scan_counts probe files
    some ⟨files.length, c.2, c.1,
      if 0 < c.2 then some (fmtPercent c.1 c.2) else none,
      if files.length ≠ c.2 then some (files.length - c.2) else none⟩

/-! ### Interactive shell (`check_single_file` lines 109-120, `main`
lines 149-176), one loop iteration at a time -/

/-- The outcome of one `input()` call: a text line, or an interrupt
(`KeyboardInterrupt` / `EOFError`). -/
inductive Inp where
  | text (s : String)
  | interrupt
deriving DecidableEq

/-- The control effect of one menu iteration. -/
inductive Effect where
  /-- `break` out of the menu loop: `main` returns and the process ends. -/
  | exitLoop
  /-- `sys.exit(code)`. -/
  | exitProcess (code : Nat)
  /-- the folder flow proceeds into `scan_folder(folder)`. -/
  | runScan (folder : String)
  /-- the single-file flow proceeds past the empty-path check with `path`. -/
  | runSingle (path : String)
  /-- control falls through to the next menu iteration. -/
  | toMenu
deriving DecidableEq

/-- Messages printed after the reads of one iteration, plus its effect. -/
structure IterResult where
  msgs : List String
  effect : Effect
deriving DecidableEq

/-- `check_single_file` up to the empty-path check: the path prompt read
(lines 112-120).  On interrupt it prints a farewell and calls
`sys.exit(0)`; an empty stripped path is reported as an error. -/
def check_single_file_step (inp : Inp) : IterResult :=
  match inp with
  | .interrupt => ⟨["👋 再见！"], .exitProcess 0⟩
  | .text t =>
    let path := pyStripQuotes (pyStrip t)
    if path = "" then ⟨["❌ 路径为空"], .toMenu⟩
    else ⟨[], .runSingle path⟩

/-- One iteration of the `main` menu loop (lines 155-176): `choice` is the
menu read, `sub` the sub-flow read (used only by choices `1` and `2`). -/
def main_iter (choice : Inp) (sub : Inp) : IterResult :=
  match choice with
  | .interrupt => ⟨["👋 再见！"], .exitLoop⟩
  | .text c0 =>
    let c := pyStrip c0
    if c = "1" then check_single_file_step sub
    else if c = "2" then
      match sub with
      | .interrupt => ⟨[], .toMenu⟩
      | .text t =>
        let folder := pyStripQuotes (pyStrip t)
        if folder ≠ "" then ⟨[], .runScan folder⟩ else ⟨[], .toMenu⟩
    else if c = "0" then ⟨["✨ 感谢使用！期待下次为您服务～"], .exitLoop⟩
    else ⟨["⚠️  无效输入，请输入 0 / 1 / 2"], .toMenu⟩

/-! ### Basic lemmas about the classifier and the reporter -/

lemma classify_sr_some_eq (r : Int) :
    classify_sr (some r) = if 44100 < r then "HI-RES" else "Standard" := by
  by_cases h : 44100 < r
  · have hz : (r != 0) = true := by simp; omega
    simp [classify_sr, intTruthy, hz, h]
  · simp [classify_sr, intTruthy, h]

lemma print_result_ok (p : String) (sr : Option Int) :
    (print_result p sr).2 = sr.isSome := by
  cases sr with
  | none => rfl
  | some r => simp only [print_result, Option.isSome_some]; split <;> rfl

lemma print_result_name (p : String) (sr : Option Int) :
    (print_result p sr).1.displayName = if 60 < p.length then basename p else p := by
  cases sr with
  | none => rfl
  | some r => simp only [print_result]; split <;> rfl

lemma print_result_tag (p : String) (r : Int) :
    (print_result p (some r)).1.tag =
      if 44100 < r then Tag.hiRes ((r : ℚ) / 1000) else Tag.standard ((r : ℚ) / 1000) := by
  by_cases h : 44100 < r
  · simp [print_result, classify_sr_some_eq, h]
  · simp [print_result, classify_sr_some_eq, h]

lemma print_result_tag_isHiRes (p : String) (sr : Option Int) :
    (print_result p sr).1.tag.isHiRes =
      (match sr with
       | some r => decide (44100 < r)
       | none => false) := by
  cases sr with
  | none => rfl
  | some r =>
    rw [print_result_tag]
    by_cases h : 44100 < r <;> simp [Tag.isHiRes, h]

/-! ### Claim C1 -/

/-- C1 counterexample: at the present value `r = 0` the code classifies
`Standard`, yet `0 < r` fails, so "`classify(r) = Standard` iff
`0 < r ≤ 44100`" is false as stated. -/
theorem spec_c1_cex :
    ¬((classify_sr (some 0) = "Standard") ↔ (0 < (0 : Int) ∧ (0 : Int) ≤ 44100)) := by
  decide

/-- C1 (amended): for every present sample rate `r` (any integer,
including `0` and negatives), `classify_sr` returns HI-RES iff
`r > 44100` and Standard iff `r ≤ 44100`; in particular the boundary
value `44100` is classified Standard. -/
theorem spec_c1 (r : Int) :
    (classify_sr (some r) = "HI-RES" ↔ 44100 < r)
    ∧ (classify_sr (some r) = "Standard" ↔ r ≤ 44100)
    ∧ classify_sr (some 44100) = "Standard" := by
  refine ⟨?_, ?_, by decide⟩ <;>
    (rw [classify_sr_some_eq]; by_cases h : 44100 < r <;> simp [h] <;> omega)

/-! ### Claim C3 -/

/-- C3 counterexample: the classifier function applied to the absent
probe result does yield `"Standard"` (Python: `None` is falsy, so
`"HI-RES" if sr and sr > 44100 else "Standard"` takes the `else` branch),
contradicting "it never yields Standard". -/
theorem spec_c3_cex : classify_sr none = "Standard" := by
  decide

/-- C3 (amended): when the probe result is absent, the reporting path
never consults the value of the classifier: `print_result` prints a failure
tag (no category), returns `False`, and the file contributes to neither
counter of a folder scan — even though `classify_sr` itself would map the
absent value to `Standard`, that value is unused. -/
theorem spec_c3 (p : String) :
    (print_result p none).2 = false
    ∧ (print_result p none).1.tag = Tag.failed
    ∧ (∀ (probe : String → Option Int) (files : List String) (f : String),
        probe f = none →
        scan_counts probe (files ++ [f]) = scan_counts probe files) := by
  refine ⟨rfl, rfl, ?_⟩
  intro probe files f h
  unfold scan_counts
  rw [List.foldl_append]
  simp [scan_step, print_result_ok, h]

/-- C3 witness: the amended statement at a concrete file and probe. -/
theorem spec_c3_witness :
    (print_result "song.mp3" none).2 = false
    ∧ scan_counts (fun _ => none) (["a.flac"] ++ ["song.mp3"])
        = scan_counts (fun _ => none) ["a.flac"] :=
  ⟨(spec_c3 "song.mp3").1,
   (spec_c3 "song.mp3").2.2 (fun _ => none) ["a.flac"] "song.mp3" rfl⟩

/-! ### Claim C8 -/

/-- C8: the display name a reported line uses is the full path when the
path has at most 60 characters, and exactly the base file name (all
directory components dropped) when it is longer. -/
theorem spec_c8 (p : String) (sr : Option Int) :
    (p.length ≤ 60 → (print_result p sr).1.displayName = p)
    ∧ (60 < p.length → (print_result p sr).1.displayName = basename p) := by
  constructor
  · intro h
    rw [print_result_name]
    simp [Nat.not_lt.mpr h]
  · intro h
    rw [print_result_name]
    simp [h]

/-- C8 witness: a 13-character path displays in full; a 72-character path
displays as its base name only. -/
theorem spec_c8_witness :
    (print_result "/Music/a.flac" none).1.displayName = "/Music/a.flac"
    ∧ (print_result
        "/Users/someone/Music/collection/very-long-album-name-here/track-01.flac"
        (some 48000)).1.displayName
      = basename "/Users/someone/Music/collection/very-long-album-name-here/track-01.flac" :=
  ⟨(spec_c8 "/Music/a.flac" none).1 (by decide),
   (spec_c8 "/Users/someone/Music/collection/very-long-album-name-here/track-01.flac"
      (some 48000)).2 (by decide)⟩

/-! ### Claim C4 -/

/-- C4 counterexample: an interrupt at the single-file path prompt does
not silently return to the menu — the code prints a farewell and calls
`sys.exit(0)`, terminating the process. -/
theorem spec_c4_cex :
    main_iter (Inp.text "1") Inp.interrupt = ⟨["👋 再见！"], Effect.exitProcess 0⟩
    ∧ (main_iter (Inp.text "1") Inp.interrupt).effect ≠ Effect.toMenu := by
  decide

/-- C4 (amended): an interrupt at the main-menu prompt prints a farewell
and terminates (the loop breaks and the process ends); an interrupt at
the folder path prompt silently returns to the menu; but an interrupt at
the single-file path prompt prints a farewell and terminates the process
via `sys.exit(0)` instead of returning to the menu. -/
theorem spec_c4 (sub : Inp) :
    main_iter Inp.interrupt sub = ⟨["👋 再见！"], Effect.exitLoop⟩
    ∧ main_iter (Inp.text "2") Inp.interrupt = ⟨[], Effect.toMenu⟩
    ∧ main_iter (Inp.text "1") Inp.interrupt = ⟨["👋 再见！"], Effect.exitProcess 0⟩ :=
  ⟨rfl, by decide, by decide⟩

/-! ### Claim C10 -/

/-- C10: a folder path that is empty after stripping whitespace and
surrounding quotes causes a silent fall-through to the menu — no scan, no
message — while the single-file flow reports the same situation as a
path-empty error (and also returns to the menu). -/
theorem spec_c10 (t : String) (h : pyStripQuotes (pyStrip t) = "") :
    main_iter (Inp.text "2") (Inp.text t) = ⟨[], Effect.toMenu⟩
    ∧ main_iter (Inp.text "1") (Inp.text t) = ⟨["❌ 路径为空"], Effect.toMenu⟩ := by
  have h2 : main_iter (Inp.text "2") (Inp.text t)
      = if pyStripQuotes (pyStrip t) ≠ "" then
          ⟨[], Effect.runScan (pyStripQuotes (pyStrip t))⟩
        else ⟨[], Effect.toMenu⟩ := rfl
  have h1 : main_iter (Inp.text "1") (Inp.text t)
      = if pyStripQuotes (pyStrip t) = "" then ⟨["❌ 路径为空"], Effect.toMenu⟩
        else ⟨[], Effect.runSingle (pyStripQuotes (pyStrip t))⟩ := rfl
  rw [h2, h1, h]
  simp

/-- C10 witness: the input consisting of a quoted empty string plus
whitespace strips to empty and falls through silently in the folder flow,
but draws the error message in the single-file flow. -/
theorem spec_c10_witness :
    main_iter (Inp.text "2") (Inp.text " \"\" ") = ⟨[], Effect.toMenu⟩
    ∧ main_iter (Inp.text "1") (Inp.text " \"\" ") = ⟨["❌ 路径为空"], Effect.toMenu⟩ :=
  spec_c10 " \"\" " (by decide)

/-! ### Claim C2 -/

/-- C2 counterexample: when the probing tool is missing at invocation
time, `subprocess.run` raises `FileNotFoundError`, which is not among the
classes caught on line 40 — `get_sample_rate` propagates the exception
instead of returning the absence signal. -/
theorem spec_c2_cex :
    get_sample_rate ProbeEnv.toolMissing = Except.error PyExc.fileNotFound
    ∧ get_sample_rate ProbeEnv.toolMissing ≠ Except.ok none := by
  refine ⟨rfl, ?_⟩
  intro h
  rw [show get_sample_rate ProbeEnv.toolMissing = Except.error PyExc.fileNotFound from rfl] at h
  exact Except.noConfusion h

/-- C2 (amended): every listed failure mode of the probe invoker other
than the tool being missing — non-zero exit status, malformed JSON
output, a missing `streams` key, an empty stream list, a first stream
without a `sample_rate` key, and a `sample_rate` that is a non-numeric
string — is caught and normalised to the absence signal `None` without
raising; the tool being absent instead propagates `FileNotFoundError`
(normally prevented by the startup pre-flight check). -/
theorem spec_c2 :
    get_sample_rate ProbeEnv.exitNonZero = Except.ok none
    ∧ get_sample_rate (ProbeEnv.output none) = Except.ok none
    ∧ (∀ kvs, jlookup kvs "streams" = none →
        get_sample_rate (ProbeEnv.output (some (JVal.obj kvs))) = Except.ok none)
    ∧ get_sample_rate (ProbeEnv.output (some (JVal.obj [("streams", JVal.arr [])])))
        = Except.ok none
    ∧ (∀ kvs, kvs.any (fun kv => kv.1 == "sample_rate") = false →
        get_sample_rate
          (ProbeEnv.output (some (JVal.obj [("streams", JVal.arr [JVal.obj kvs])])))
          = Except.ok none)
    ∧ (∀ s, pyParseInt s = none →
        get_sample_rate
          (ProbeEnv.output (some (JVal.obj
            [("streams", JVal.arr [JVal.obj [("sample_rate", JVal.str s)]])])))
          = Except.ok none) := by
  refine ⟨rfl, rfl, ?_, rfl, ?_, ?_⟩
  · intro kvs h
    simp only [get_sample_rate, get_sample_rate_body, py_get_default, h, Option.getD]
    rfl
  · intro kvs h
    have hlook : jlookup [("streams", JVal.arr [JVal.obj kvs])] "streams"
        = some (JVal.arr [JVal.obj kvs]) := rfl
    simp only [get_sample_rate, get_sample_rate_body, py_get_default, hlook,
      Option.getD, jtruthy, py_index0, py_contains_str, List.head?_cons,
      List.isEmpty_cons, Bool.not_false, if_true, h]
    rfl
  · intro s h
    have hlook : jlookup [("streams", JVal.arr [JVal.obj [("sample_rate", JVal.str s)]])]
        "streams" = some (JVal.arr [JVal.obj [("sample_rate", JVal.str s)]]) := rfl
    have hfield : jlookup [("sample_rate", JVal.str s)] "sample_rate"
        = some (JVal.str s) := rfl
    simp only [get_sample_rate, get_sample_rate_body, py_get_default, hlook,
      Option.getD, jtruthy, py_index0, py_contains_str, py_subscript_str, hfield,
      py_int_of, List.head?_cons, List.isEmpty_cons, Bool.not_false, if_true, h]
    rfl

/-- C2 witness: concrete instances of the hypothesis-bearing conjuncts —
a JSON object with no `streams` key, a stream object with no
`sample_rate` key, and the non-numeric rate string `N/A`. -/
theorem spec_c2_witness :
    get_sample_rate (ProbeEnv.output (some (JVal.obj [("format", JVal.null)])))
      = Except.ok none
    ∧ get_sample_rate
        (ProbeEnv.output (some (JVal.obj
          [("streams", JVal.arr [JVal.obj [("codec_type", JVal.str "audio")]])])))
      = Except.ok none
    ∧ get_sample_rate
        (ProbeEnv.output (some (JVal.obj
          [("streams", JVal.arr [JVal.obj [("sample_rate", JVal.str "N/A")]])])))
      = Except.ok none :=
  ⟨spec_c2.2.2.1 [("format", JVal.null)] rfl,
   spec_c2.2.2.2.2.1 [("codec_type", JVal.str "audio")] rfl,
   spec_c2.2.2.2.2.2 "N/A" rfl⟩

/-! ### Lemmas about the folder scan -/

lemma probeHiRes_imp_probeOk (probe : String → Option Int) (f : String) :
    probeHiRes probe f = true → probeOk probe f = true := by
  unfold probeHiRes probeOk
  cases probe f <;> simp

lemma scan_step_eq (probe : String → Option Int) (acc : Nat × Nat) (f : String) :
    scan_step probe acc f =
      if probeOk probe f then
        (acc.1 + (if probeHiRes probe f then 1 else 0), acc.2 + 1)
      else acc := by
  simp only [scan_step, probeOk, probeHiRes]
  rw [print_result_ok]

lemma foldl_scan_step (probe : String → Option Int) :
    ∀ (l : List String) (a b : Nat),
      l.foldl (scan_step probe) (a, b)
        = (a + (l.filter (probeHiRes probe)).length,
           b + (l.filter (probeOk probe)).length) := by
  intro l
  induction l with
  | nil => intro a b; simp
  | cons f fs ih =>
    intro a b
    rw [List.foldl_cons, scan_step_eq]
    by_cases hok : probeOk probe f = true
    · by_cases hhi : probeHiRes probe f = true
      · rw [if_pos hok, if_pos hhi, ih]
        simp only [List.filter_cons, hok, hhi, if_true, List.length_cons, Prod.mk.injEq]
        omega
      · rw [if_pos hok, if_neg hhi, ih]
        simp only [List.filter_cons, hok, hhi, if_true, Bool.false_eq_true, if_false,
          List.length_cons, Prod.mk.injEq]
        omega
    · have hhi : ¬probeHiRes probe f = true := fun hh => hok (probeHiRes_imp_probeOk probe f hh)
      rw [if_neg hok, ih]
      simp only [List.filter_cons]
      rw [if_neg hhi, if_neg hok]

lemma scan_counts_eq (probe : String → Option Int) (l : List String) :
    scan_counts probe l
      = ((l.filter (probeHiRes probe)).length, (l.filter (probeOk probe)).length) := by
  unfold scan_counts
  rw [foldl_scan_step]
  simp

lemma mem_audio_files (entries : List FsEntry) (p : String) :
    p ∈ audio_files entries
      ↔ ∃ e, e ∈ entries ∧ e.isFile = true ∧ isAudioExt e.path = true ∧ e.path = p := by
  unfold audio_files
  rw [List.mem_insertionSort]
  simp only [List.mem_map, List.mem_filter, Bool.and_eq_true]
  constructor
  · rintro ⟨e, ⟨he, hf, hx⟩, rfl⟩
    exact ⟨e, he, hf, hx, rfl⟩
  · rintro ⟨e, he, hf, hx, rfl⟩
    exact ⟨e, ⟨he, hf, hx⟩, rfl⟩

lemma scan_folder_model_some (probe : String → Option Int) (entries : List FsEntry)
    (rep : SummaryReport) (h : scan_folder_model probe entries = some rep) :
    rep.totalFiles = (audio_files entries).length
    ∧ rep.totalValid = ((audio_files entries).filter (probeOk probe)).length
    ∧ rep.hiResCount = ((audio_files entries).filter (probeHiRes probe)).length
    ∧ rep.pctLine = (if 0 < ((audio_files entries).filter (probeOk probe)).length
        then some (fmtPercent ((audio_files entries).filter (probeHiRes probe)).length
          ((audio_files entries).filter (probeOk probe)).length) else none)
    ∧ rep.failLine = (if (audio_files entries).length
          ≠ ((audio_files entries).filter (probeOk probe)).length
        then some ((audio_files entries).length
          - ((audio_files entries).filter (probeOk probe)).length) else none) := by
  unfold scan_folder_model at h
  by_cases he : (audio_files entries).isEmpty
  · simp [he] at h
  · rw [if_neg (by simp [he])] at h
    rw [scan_counts_eq] at h
    injection h with h
    subst h
    exact ⟨rfl, rfl, rfl, rfl, rfl⟩

/-- The tenths value produced by half-even rounding of the exact quotient
`p / q` is within half a unit of it. -/
lemma roundHalfEvenDiv_close (p q : Nat) (hq : 0 < q) :
    |(p : ℚ) / q - (roundHalfEvenDiv p q : ℚ)| ≤ 1 / 2 := by
  have hmod : q * (p / q) + p % q = p := Nat.div_add_mod p q
  have hr : p % q < q := Nat.mod_lt _ hq
  have hq0 : (q : ℚ) ≠ 0 := by
    exact_mod_cast Nat.pos_iff_ne_zero.mp hq
  have hqQ : (0 : ℚ) < q := by exact_mod_cast hq
  have hpq : (p : ℚ) = q * (p / q : Nat) + (p % q : Nat) := by exact_mod_cast hmod.symm
  have key : (p : ℚ) / q - (p / q : Nat) = (p % q : Nat) / q := by
    field_simp [hpq]
  simp only [roundHalfEvenDiv]
  split_ifs with h1 h2 h3
  · rw [key, abs_of_nonneg (by positivity)]
    have h1Q : 2 * ((p % q : Nat) : ℚ) < q := by exact_mod_cast h1
    rw [div_le_div_iff₀ hqQ (by norm_num)]
    linarith
  · have e2 : (p : ℚ) / q - ((p / q : Nat) + 1 : Nat) = (p % q : Nat) / q - 1 := by
      push_cast
      rw [show (p : ℚ) / q - ((p / q : Nat) + 1) = ((p : ℚ) / q - (p / q : Nat)) - 1 by ring,
        key]
    rw [e2, abs_of_nonpos (by
      have : ((p % q : Nat) : ℚ) / q < 1 := by
        rw [div_lt_one hqQ]
        exact_mod_cast hr
      linarith)]
    have h2Q : (q : ℚ) < 2 * ((p % q : Nat) : ℚ) := by exact_mod_cast h2
    have hhalf : (1 : ℚ) / 2 ≤ ((p % q : Nat) : ℚ) / q := by
      rw [div_le_div_iff₀ (by norm_num) hqQ]
      linarith
    linarith
  · have htie : 2 * (p % q) = q := by omega
    have htieQ : ((p % q : Nat) : ℚ) / q = 1 / 2 := by
      have : (q : ℚ) = 2 * ((p % q : Nat) : ℚ) := by exact_mod_cast htie.symm
      rw [this]
      have : ((p % q : Nat) : ℚ) ≠ 0 := by
        intro h0
        rw [h0, mul_zero] at this
        exact hq0 this
      field_simp
      ring
    rw [key, htieQ]
    simp [abs_of_nonneg]
  · have htie : 2 * (p % q) = q := by omega
    have e2 : (p : ℚ) / q - ((p / q : Nat) + 1 : Nat) = (p % q : Nat) / q - 1 := by
      push_cast
      rw [show (p : ℚ) / q - ((p / q : Nat) + 1) = ((p : ℚ) / q - (p / q : Nat)) - 1 by ring,
        key]
    have htieQ : ((p % q : Nat) : ℚ) / q = 1 / 2 := by
      have hQ : (q : ℚ) = 2 * ((p % q : Nat) : ℚ) := by exact_mod_cast htie.symm
      rw [hQ]
      have : ((p % q : Nat) : ℚ) ≠ 0 := by
        intro h0
        rw [h0, mul_zero] at hQ
        exact hq0 hQ
      field_simp
      ring
    rw [e2, htieQ]
    rw [abs_le]
    constructor <;> norm_num

/-! ### Claim C7 -/

/-- C7: the files a folder scan discovers and processes are exactly the
regular-file entries under the folder whose lowercased extension is one
of the seven recognised audio extensions, sorted in ascending path
order; everything else is ignored. -/
theorem spec_c7 (entries : List FsEntry) :
    (∀ p, p ∈ audio_files entries
      ↔ ∃ e, e ∈ entries ∧ e.isFile = true ∧ isAudioExt e.path = true ∧ e.path = p)
    ∧ List.Sorted pathLeP (audio_files entries) :=
  ⟨fun p => mem_audio_files entries p, List.sorted_insertionSort pathLeP _⟩

/-! ### Claim C9 -/

/-- C9: throughout a folder scan the counters satisfy
`hi_res_count ≤ total_valid ≤ number of files processed` (hence so after
every prefix, since the counters over a prefix are the counters of the
prefix list), and appending one more file to a scan increments
`hi_res_count` exactly when its probe succeeded above 44100 Hz, which is
exactly when its per-file line carries the HI-RES tag. -/
theorem spec_c9 (probe : String → Option Int) (files : List String) (f : String) :
    (scan_counts probe files).1 ≤ (scan_counts probe files).2
    ∧ (scan_counts probe files).2 ≤ files.length
    ∧ ((scan_counts probe (files ++ [f])).1 = (scan_counts probe files).1 + 1
        ↔ ∃ r, probe f = some r ∧ 44100 < r)
    ∧ ((scan_counts probe (files ++ [f])).1 = (scan_counts probe files).1 + 1
        ↔ (print_result f (probe f)).1.tag.isHiRes = true)
    ∧ ((scan_counts probe (files ++ [f])).1 = (scan_counts probe files).1
        ∨ (scan_counts probe (files ++ [f])).1 = (scan_counts probe files).1 + 1) := by
  have hdelta : (scan_counts probe (files ++ [f])).1
      = (scan_counts probe files).1 + (if probeHiRes probe f then 1 else 0) := by
    rw [scan_counts_eq, scan_counts_eq]
    simp only [List.filter_append, List.length_append]
    cases hf : probeHiRes probe f <;> simp [List.filter_cons, hf]
  have hiff : (scan_counts probe (files ++ [f])).1 = (scan_counts probe files).1 + 1
      ↔ probeHiRes probe f = true := by
    rw [hdelta]
    cases hf : probeHiRes probe f <;> simp
  refine ⟨?_, ?_, ?_, ?_, ?_⟩
  · rw [scan_counts_eq]
    exact (List.monotone_filter_right files (probeHiRes_imp_probeOk probe)).length_le
  · rw [scan_counts_eq]
    exact List.length_filter_le _ _
  · rw [hiff]
    unfold probeHiRes
    cases hp : probe f with
    | none => simp
    | some r => simp
  · rw [hiff, print_result_tag_isHiRes]
    unfold probeHiRes
    rfl
  · rw [hdelta]
    cases hf : probeHiRes probe f <;> simp

/-! ### Claim C5 -/

/-- C5: after a folder scan that produced a report, the percentage line
is present exactly when the valid (successfully probed) count is
positive; when present it reads `hi_res_count / total_valid * 100`
rendered to one decimal place, and the rendered tenths value is within
`0.05` of the exact percentage. -/
theorem spec_c5 (probe : String → Option Int) (entries : List FsEntry)
    (rep : SummaryReport) (h : scan_folder_model probe entries = some rep) :
    (rep.pctLine.isSome ↔ 0 < ((audio_files entries).filter (probeOk probe)).length)
    ∧ (∀ pct, rep.pctLine = some pct →
        pct = fmtPercent ((audio_files entries).filter (probeHiRes probe)).length
          ((audio_files entries).filter (probeOk probe)).length)
    ∧ (0 < ((audio_files entries).filter (probeOk probe)).length →
        |(((audio_files entries).filter (probeHiRes probe)).length : ℚ) * 100
            / ((audio_files entries).filter (probeOk probe)).length
          - (roundHalfEvenDiv
              (((audio_files entries).filter (probeHiRes probe)).length * 1000)
              ((audio_files entries).filter (probeOk probe)).length : ℚ) / 10|
          ≤ 1 / 20) := by
  obtain ⟨-, -, -, hpct, -⟩ := scan_folder_model_some probe entries rep h
  refine ⟨?_, ?_, ?_⟩
  · rw [hpct]
    split_ifs with hv <;> simp [hv]
  · intro pct hp
    rw [hpct] at hp
    split_ifs at hp with hv
    · injection hp with hp
      exact hp.symm
  · intro hv
    have hclose := roundHalfEvenDiv_close
      (((audio_files entries).filter (probeHiRes probe)).length * 1000)
      ((audio_files entries).filter (probeOk probe)).length hv
    set hi := ((audio_files entries).filter (probeHiRes probe)).length
    set va := ((audio_files entries).filter (probeOk probe)).length
    set t := roundHalfEvenDiv (hi * 1000) va
    have hva : (0 : ℚ) < va := by exact_mod_cast hv
    have hcast : ((hi * 1000 : Nat) : ℚ) = (hi : ℚ) * 1000 := by push_cast; ring
    rw [hcast] at hclose
    have hdiv : (hi : ℚ) * 100 / va - (t : ℚ) / 10
        = ((hi : ℚ) * 1000 / va - (t : ℚ)) / 10 := by
      field_simp
      ring
    rw [hdiv, abs_div]
    rw [abs_of_nonneg (by norm_num : (0:ℚ) ≤ 10)]
    linarith [hclose]

/-- C5 witness: a one-file folder whose file probes at 96 kHz yields the
percentage line `100.0`. -/
theorem spec_c5_witness :
    ((⟨1, 1, 1, some "100.0", none⟩ : SummaryReport).pctLine.isSome
      ↔ 0 < ((audio_files [⟨"/m/a.mp3", true⟩]).filter
          (probeOk (fun _ => some 96000))).length)
    ∧ "100.0" = fmtPercent
        ((audio_files [⟨"/m/a.mp3", true⟩]).filter
          (probeHiRes (fun _ => some 96000))).length
        ((audio_files [⟨"/m/a.mp3", true⟩]).filter
          (probeOk (fun _ => some 96000))).length :=
  ⟨(spec_c5 (fun _ => some 96000) [⟨"/m/a.mp3", true⟩] ⟨1, 1, 1, some "100.0", none⟩
      (by decide)).1,
   (spec_c5 (fun _ => some 96000) [⟨"/m/a.mp3", true⟩] ⟨1, 1, 1, some "100.0", none⟩
      (by decide)).2.1 "100.0" (by decide)⟩

/-! ### Claim C6 -/

/-- C6: after a folder scan that produced a report, the failure-count
line is present exactly when some discovered file failed to probe
(discovered − valid > 0), and its value is that difference. -/
theorem spec_c6 (probe : String → Option Int) (entries : List FsEntry)
    (rep : SummaryReport) (h : scan_folder_model probe entries = some rep) :
    (rep.failLine.isSome ↔ 0 < (audio_files entries).length
        - ((audio_files entries).filter (probeOk probe)).length)
    ∧ (∀ d, rep.failLine = some d →
        d = (audio_files entries).length
          - ((audio_files entries).filter (probeOk probe)).length) := by
  obtain ⟨-, -, -, -, hfail⟩ := scan_folder_model_some probe entries rep h
  have hle : ((audio_files entries).filter (probeOk probe)).length
      ≤ (audio_files entries).length := List.length_filter_le _ _
  constructor
  · rw [hfail]
    split_ifs with hne <;> simp <;> omega
  · intro d hd
    rw [hfail] at hd
    split_ifs at hd with hne
    · injection hd with hd
      exact hd.symm

/-- C6 witness: a two-file folder where one file fails to probe yields
the failure line with count 1. -/
theorem spec_c6_witness :
    ((⟨2, 1, 1, some "100.0", some 1⟩ : SummaryReport).failLine.isSome
      ↔ 0 < (audio_files [⟨"/m/a.mp3", true⟩, ⟨"/m/b.wav", true⟩]).length
          - ((audio_files [⟨"/m/a.mp3", true⟩, ⟨"/m/b.wav", true⟩]).filter
              (probeOk (fun g => if g = "/m/a.mp3" then some 48000 else none))).length)
    ∧ (1 : Nat) = (audio_files [⟨"/m/a.mp3", true⟩, ⟨"/m/b.wav", true⟩]).length
        - ((audio_files [⟨"/m/a.mp3", true⟩, ⟨"/m/b.wav", true⟩]).filter
            (probeOk (fun g => if g = "/m/a.mp3" then some 48000 else none))).length :=
  ⟨(spec_c6 (fun g => if g = "/m/a.mp3" then some 48000 else none)
      [⟨"/m/a.mp3", true⟩, ⟨"/m/b.wav", true⟩] ⟨2, 1, 1, some "100.0", some 1⟩
      (by decide)).1,
   (spec_c6 (fun g => if g = "/m/a.mp3" then some 48000 else none)
      [⟨"/m/a.mp3", true⟩, ⟨"/m/b.wav", true⟩] ⟨2, 1, 1, some "100.0", some 1⟩
      (by decide)).2 1 (by decide)⟩

end AudioCheck
